import Mathlib

/-!
Verification of the terminal-error reporting module of glazier
(source file: src/glazier/lib/error.py).

The module consists of an error-code registry with message lookup
(function get_message), a log-collection wrapper (function _collect) and
the constructor of the GlazierError exception class, which resolves a
message, composes it with an optional exception line and a help footer,
optionally invokes diagnostic log collection, logs the composed message at
critical severity and terminates the process with sys.exit(1).

The embedding below is a fuel-indexed interpreter of the constructor.
External collaborators (the HELP_URI constant from the constants module,
BuildInfo.CachePath, os.sep, and the behaviour of logs.Collect) are
parameters of an environment record; observable side effects (critical log
records, invocations of logs.Collect) are threaded through an effects
record.  Process termination by sys.exit is a terminal outcome value:
the Python constructor never returns control to its caller, and in the
embedding every run of the constructor ends in such an outcome.
-/

namespace Glazier

/-- The opening-brace character of Python format placeholders, by code point. -/
def lbrace : Char := Char.ofNat 123

/-- The closing-brace character of Python format placeholders, by code point. -/
def rbrace : Char := Char.ofNat 125

/-- Python truthiness test on an optional string: None and the empty string
are falsy.  Used for the checks "if not msg" and "if not error_msg" in the
source. -/
def pyFalsyStr : Option String → Bool
  | Option.none => true
  | Option.some s => s == ""

/-- A Python value as passed in the exception argument of
GlazierError.__init__ (typed Optional[Any] in the source): either None, a
plain string, or an exception object whose str rendering is the carried
string.  The distinction matters for truthiness: a non-None exception
object is always truthy, while an empty string is falsy. -/
inductive PyObj where
  | none
  | str (s : String)
  | exc (s : String)
deriving DecidableEq

/-- Python truthiness of a PyObj, for the check "if exception" in the source. -/
def PyObj.truthy : PyObj → Bool
  | PyObj.none => false
  | PyObj.str s => !(s == "")
  | PyObj.exc _ => true

/-- The str rendering of a PyObj, as interpolated by the f-string
"Exception: ..." in the source. -/
def PyObj.render : PyObj → String
  | PyObj.none => "None"
  | PyObj.str s => s
  | PyObj.exc s => s

/-- Model of Python str.format with positional arguments, restricted to
automatically numbered placeholders (an open brace directly followed by a
close brace) and doubled-brace escapes.  A placeholder with no remaining
argument, or any other use of a brace, yields Option.none, standing for an
exception escaping str.format.  All message templates in the registry of
error.py are brace-free, so on every string this module ever formats the
model is exact: format returns the template unchanged. -/
def pyFormatAux : List Char → List String → Option String
  | [], _ => Option.some ""
  | [c], _ =>
    if c = lbrace ∨ c = rbrace then Option.none else Option.some c.toString
  | c :: c2 :: rest, args =>
    if c = lbrace then
      if c2 = lbrace then
        (pyFormatAux rest args).map (fun s => lbrace.toString ++ s)
      else if c2 = rbrace then
        match args with
        | [] => Option.none
        | a :: moreArgs => (pyFormatAux rest moreArgs).map (fun s => a ++ s)
      else Option.none
    else if c = rbrace then
      if c2 = rbrace then
        (pyFormatAux rest args).map (fun s => rbrace.toString ++ s)
      else Option.none
    else (pyFormatAux (c2 :: rest) args).map (fun s => c.toString ++ s)

/-- Python str.format on a string, via its character list. -/
def pyFormat (s : String) (args : List String) : Option String :=
  pyFormatAux s.data args

/-- The error registry of get_message (error.py lines 50 to 56): a fixed
dict from integer error code to message template. -/
def errors (code : Int) : Option String :=
  if code = 4000 then Option.some "Uncaught exception"
  else if code = 4301 then Option.some "Failed to determine error message from code"
  else if code = 4302 then Option.some "Failed to collect logs"
  else if code = 5000 then Option.some "Failed to reach web server"
  else if code = 5300 then Option.some "Service unavailable"
  else Option.none

/-- Modelled from the spec: the external collaborators of error.py, which
are not under src/.  helpUri is the constant constants.HELP_URI; cachePath
is the value of buildinfo.BuildInfo().CachePath(); osSep is os.sep;
collectOutcome gives the behaviour of the k-th invocation of logs.Collect
(Option.none means the call succeeds, Option.some e means it raises
logs.LogError whose str rendering is e). -/
structure Env where
  helpUri : String
  cachePath : String
  osSep : String
  collectOutcome : Nat → Option String

/-- Observable side effects accumulated by a run: the strings passed to
logging.critical in order, the destination arguments of each logs.Collect
invocation in order, and, as ghost instrumentation only (it mirrors no
state of the program), the code argument of each get_message call, used to
state registry-lookup claims. -/
structure Effects where
  criticalLogs : List String
  collectArgs : List String
  getMessageCalls : List Int
deriving DecidableEq

/-- The empty starting effects of a fresh process. -/
def effEmpty : Effects := ⟨[], [], []⟩

/-- Terminal outcome of running the GlazierError constructor: sys.exit
with a status, an uncaught non-Glazier Python exception escaping the
constructor, or fuel exhaustion (an artifact of the fuel-indexed
embedding, never reached with sufficient fuel). -/
inductive GResult where
  | exited (status : Int)
  | uncaught (desc : String)
  | fuelOut
deriving DecidableEq

/-- The constant _SUFFIX of error.py line 30, an f-string interpolating
constants.HELP_URI. -/
def _SUFFIX (env : Env) : String := "Need help? Visit " ++ env.helpUri

/-- The destination zip argument built in _collect (error.py lines 70 to
71): os.path.join of CachePath() + os.sep with the literal file name,
which concatenates since the first component ends with the separator. -/
def zipDest (env : Env) : String := env.cachePath ++ env.osSep ++ "glazier_logs.zip"

/-- Ghost instrumentation: record a get_message invocation for a code. -/
def markLookup (eff : Effects) (code : Int) : Effects :=
  { eff with getMessageCalls := eff.getMessageCalls ++ [code] }

/-- The message composition of GlazierError.__init__ (error.py lines 100
to 106): append two newlines, then, when the exception argument is truthy,
the exception line followed by two newlines, then the help footer with the
code. -/
def composed (env : Env) (m0 : String) (exception : PyObj) (code : Int) : String :=
  let m1 := m0 ++ "\n\n"
  let m2 :=
    if exception.truthy then m1 ++ "Exception: " ++ exception.render ++ "\n\n"
    else m1
  m2 ++ _SUFFIX env ++ "#" ++ toString code

/-- The signature of the GlazierError constructor: environment, incoming
effects, code, msg, exception, collect, and the keyword arguments as an
ordered list of name and value pairs. -/
def InitSig : Type :=
  Env → Effects → Int → Option String → PyObj → Bool →
    List (String × String) → GResult × Effects

/-- Embedding of get_message (error.py lines 35 to 65), parameterised by
the GlazierError constructor it re-enters on a failed lookup.  Looks up
the code in the registry; a falsy result raises GlazierError(4301) -- in
Python, constructing that exception already logs and exits, so the raise
never returns, modelled by the Sum.inr outcome.  A found template is
formatted with the values (only) of the keyword arguments, positionally. -/
def get_messageAux (ginit : InitSig) (env : Env) (eff : Effects) (code : Int)
    (kwargs : List (String × String)) : (String ⊕ GResult) × Effects :=
  let eff := markLookup eff code
  let error_msg := errors code
  if pyFalsyStr error_msg then
    let p := ginit env eff 4301 Option.none PyObj.none true []
    (Sum.inr p.1, p.2)
  else
    match pyFormat (error_msg.getD "") (kwargs.map Prod.snd) with
    | Option.some s => (Sum.inl s, eff)
    | Option.none => (Sum.inr (GResult.uncaught "IndexError escaping str.format"), eff)

/-- Embedding of _collect (error.py lines 68 to 74), parameterised by the
GlazierError constructor it re-enters on failure.  Invokes logs.Collect on
the destination zip; on logs.LogError it raises
GlazierError(4302, exception = e, collect = False), whose construction
logs and exits, so the raise never returns. -/
def _collectAux (ginit : InitSig) (env : Env) (eff : Effects) :
    Option GResult × Effects :=
  let outcome := env.collectOutcome eff.collectArgs.length
  let eff := { eff with collectArgs := eff.collectArgs ++ [zipDest env] }
  match outcome with
  | Option.none => (Option.none, eff)
  | Option.some e =>
    let p := ginit env eff 4302 Option.none (PyObj.exc e) false []
    (Option.some p.1, p.2)

/-- The body of GlazierError.__init__ (error.py lines 80 to 112),
parameterised by the constructor used for re-entry (through get_message on
a failed lookup and through _collect on a collection failure).  Steps in
source order: resolve the message via get_message when msg is falsy,
compose the full message, run _collect when collect is true, log the
composed message critically, and exit the process with status 1. -/
def initBody (ginit : InitSig) : InitSig :=
  fun env eff code msg exception collect kwargs =>
    let resolved :=
      if pyFalsyStr msg then get_messageAux ginit env eff code kwargs
      else (Sum.inl (msg.getD ""), eff)
    match resolved with
    | (Sum.inr r, eff2) => (r, eff2)
    | (Sum.inl m0, eff2) =>
      let m3 := composed env m0 exception code
      let afterCollect :=
        if collect then _collectAux ginit env eff2
        else (Option.none, eff2)
      match afterCollect with
      | (Option.some r, eff3) => (r, eff3)
      | (Option.none, eff3) =>
        (GResult.exited 1, { eff3 with criticalLogs := eff3.criticalLogs ++ [m3] })

/-- The GlazierError constructor, indexed by fuel to tie the mutual
recursion between __init__, get_message and _collect (each re-entry into
the constructor consumes one unit; a nesting depth of three occurs on the
longest actual path, unknown code then collection failure). -/
def glazier_init : Nat → InitSig
  | 0 => fun _ eff _ _ _ _ _ => (GResult.fuelOut, eff)
  | fuel + 1 => initBody (glazier_init fuel)

/-- get_message at a given fuel: the registry lookup re-entering the
constructor at that fuel on failure. -/
def get_message (fuel : Nat) : Env → Effects → Int → List (String × String) →
    (String ⊕ GResult) × Effects :=
  get_messageAux (glazier_init fuel)

/-- _collect at a given fuel: log collection re-entering the constructor
at that fuel on failure. -/
def _collect (fuel : Nat) : Env → Effects → Option GResult × Effects :=
  _collectAux (glazier_init fuel)

/-- A concrete environment whose log collection always succeeds. -/
def envOk : Env := ⟨"H", "C", "/", fun _ => Option.none⟩

/-- A concrete environment whose log collection always fails with a
LogError rendered as boom. -/
def envFail : Env := ⟨"H", "C", "/", fun _ => Option.some "boom"⟩

end Glazier

namespace Glazier

/-! ### Library lemmas about formatting and the registry -/

theorem String_mk_cons (c : Char) (cs : List Char) :
    String.mk (c :: cs) = c.toString ++ String.mk cs := rfl

theorem pyFormatAux_nobrace (cs : List Char) (args : List String)
    (h : ∀ c ∈ cs, c ≠ lbrace ∧ c ≠ rbrace) :
    pyFormatAux cs args = Option.some (String.mk cs) := by
  induction cs generalizing args with
  | nil => rfl
  | cons c rest ih =>
    obtain ⟨hc1, hc2⟩ := h c (List.mem_cons_self c rest)
    cases rest with
    | nil =>
      simp only [pyFormatAux]
      rw [if_neg (by exact fun hor => hor.elim hc1 hc2)]
      rfl
    | cons c2 rest2 =>
      have hrest : ∀ x ∈ c2 :: rest2, x ≠ lbrace ∧ x ≠ rbrace := by
        intro x hx
        exact h x (List.mem_cons_of_mem c hx)
      simp only [pyFormatAux]
      rw [if_neg hc1, if_neg hc2, ih args hrest]
      rw [String_mk_cons]
      rfl

theorem pyFormat_nobrace (s : String) (args : List String)
    (h : ∀ c ∈ s.data, c ≠ lbrace ∧ c ≠ rbrace) :
    pyFormat s args = Option.some s := by
  rw [pyFormat, pyFormatAux_nobrace s.data args h]

/-- Every template found in the registry is non-empty and brace-free. -/
theorem errors_found_spec (code : Int) (t : String) (h : errors code = Option.some t) :
    (t == "") = false ∧ ∀ c ∈ t.data, c ≠ lbrace ∧ c ≠ rbrace := by
  unfold errors at h
  split_ifs at h <;> injection h with h <;> subst h <;> exact ⟨by decide, by decide⟩

end Glazier

namespace Glazier

/-! ### Helper lemmas about the building blocks -/

theorem get_messageAux_found (ginit : InitSig) (env : Env) (eff : Effects)
    (code : Int) (kwargs : List (String × String)) (t : String)
    (h : errors code = Option.some t) :
    get_messageAux ginit env eff code kwargs = (Sum.inl t, markLookup eff code) := by
  obtain ⟨hne, hnb⟩ := errors_found_spec code t h
  unfold get_messageAux
  rw [h]
  simp only [pyFalsyStr, hne, Option.getD_some, Bool.false_eq_true, if_false]
  rw [pyFormat_nobrace t (kwargs.map Prod.snd) hnb]

theorem get_messageAux_missing (ginit : InitSig) (env : Env) (eff : Effects)
    (code : Int) (kwargs : List (String × String))
    (h : pyFalsyStr (errors code) = true) :
    get_messageAux ginit env eff code kwargs =
      (let p := ginit env (markLookup eff code) 4301 Option.none PyObj.none true []
       (Sum.inr p.1, p.2)) := by
  simp only [get_messageAux, h, if_true]

theorem _collectAux_ok (ginit : InitSig) (env : Env) (eff : Effects)
    (h : env.collectOutcome eff.collectArgs.length = Option.none) :
    _collectAux ginit env eff =
      (Option.none, { eff with collectArgs := eff.collectArgs ++ [zipDest env] }) := by
  unfold _collectAux
  rw [h]

theorem _collectAux_fail (ginit : InitSig) (env : Env) (eff : Effects) (e : String)
    (h : env.collectOutcome eff.collectArgs.length = Option.some e) :
    _collectAux ginit env eff =
      (let p := ginit env { eff with collectArgs := eff.collectArgs ++ [zipDest env] }
         4302 Option.none (PyObj.exc e) false []
       (Option.some p.1, p.2)) := by
  unfold _collectAux
  rw [h]

end Glazier

namespace Glazier

/-! ### Path lemmas for the constructor -/

/-- One step of fuel unfolds to one run of the constructor body. -/
theorem glazier_init_succ (f : Nat) : glazier_init (f + 1) = initBody (glazier_init f) := rfl

/-- Explicit truthy message, collection disabled: compose, log, exit 1. -/
theorem init_msg_noCollect (f : Nat) (env : Env) (eff : Effects) (code : Int)
    (msg : Option String) (exception : PyObj) (kwargs : List (String × String))
    (hm : pyFalsyStr msg = false) :
    glazier_init (f + 1) env eff code msg exception false kwargs =
      (GResult.exited 1,
       { eff with criticalLogs :=
          eff.criticalLogs ++ [composed env (msg.getD "") exception code] }) := by
  rw [glazier_init_succ]
  simp [initBody, hm]

/-- Falsy message, registered code, collection disabled: look up, compose,
log, exit 1. -/
theorem init_lookup_noCollect (f : Nat) (env : Env) (eff : Effects) (code : Int)
    (msg : Option String) (exception : PyObj) (kwargs : List (String × String))
    (t : String) (hm : pyFalsyStr msg = true) (hfound : errors code = Option.some t) :
    glazier_init (f + 1) env eff code msg exception false kwargs =
      (GResult.exited 1,
       { eff with
          criticalLogs := eff.criticalLogs ++ [composed env t exception code],
          getMessageCalls := eff.getMessageCalls ++ [code] }) := by
  rw [glazier_init_succ]
  have hgm := get_messageAux_found (glazier_init f) env eff code kwargs t hfound
  simp [initBody, hm, hgm, markLookup]

end Glazier

namespace Glazier

/-- Explicit truthy message, collection enabled and succeeding. -/
theorem init_msg_collectOk (f : Nat) (env : Env) (eff : Effects) (code : Int)
    (msg : Option String) (exception : PyObj) (kwargs : List (String × String))
    (hm : pyFalsyStr msg = false)
    (hc : env.collectOutcome eff.collectArgs.length = Option.none) :
    glazier_init (f + 1) env eff code msg exception true kwargs =
      (GResult.exited 1,
       { eff with
          criticalLogs := eff.criticalLogs ++ [composed env (msg.getD "") exception code],
          collectArgs := eff.collectArgs ++ [zipDest env] }) := by
  rw [glazier_init_succ]
  have hca := _collectAux_ok (glazier_init f) env eff hc
  simp [initBody, hm, hca]

/-- Falsy message, registered code, collection enabled and succeeding. -/
theorem init_lookup_collectOk (f : Nat) (env : Env) (eff : Effects) (code : Int)
    (msg : Option String) (exception : PyObj) (kwargs : List (String × String))
    (t : String) (hm : pyFalsyStr msg = true) (hfound : errors code = Option.some t)
    (hc : env.collectOutcome eff.collectArgs.length = Option.none) :
    glazier_init (f + 1) env eff code msg exception true kwargs =
      (GResult.exited 1,
       { eff with
          criticalLogs := eff.criticalLogs ++ [composed env t exception code],
          collectArgs := eff.collectArgs ++ [zipDest env],
          getMessageCalls := eff.getMessageCalls ++ [code] }) := by
  rw [glazier_init_succ]
  have hgm := get_messageAux_found (glazier_init f) env eff code kwargs t hfound
  have hca := _collectAux_ok (glazier_init f) env
    ⟨eff.criticalLogs, eff.collectArgs, eff.getMessageCalls ++ [code]⟩ (by simpa using hc)
  simp [initBody, hm, hgm, hca, markLookup]

/-- Explicit truthy message, collection enabled and failing: the nested
GlazierError(4302, exception = e, collect = False) logs and exits. -/
theorem init_msg_collectFail (f : Nat) (env : Env) (eff : Effects) (code : Int)
    (msg : Option String) (exception : PyObj) (kwargs : List (String × String))
    (e : String) (hm : pyFalsyStr msg = false)
    (hc : env.collectOutcome eff.collectArgs.length = Option.some e) :
    glazier_init (f + 2) env eff code msg exception true kwargs =
      (GResult.exited 1,
       { eff with
          criticalLogs :=
            eff.criticalLogs ++ [composed env "Failed to collect logs" (PyObj.exc e) 4302],
          collectArgs := eff.collectArgs ++ [zipDest env],
          getMessageCalls := eff.getMessageCalls ++ [4302] }) := by
  have h2 : glazier_init (f + 2) = initBody (glazier_init (f + 1)) := rfl
  rw [h2]
  have hca := _collectAux_fail (glazier_init (f + 1)) env eff e hc
  have hnested := init_lookup_noCollect f env
    { eff with collectArgs := eff.collectArgs ++ [zipDest env] }
    4302 Option.none (PyObj.exc e) [] "Failed to collect logs" rfl (by decide)
  simp [initBody, hm, hca, hnested, markLookup]

/-- Falsy message, registered code, collection enabled and failing. -/
theorem init_lookup_collectFail (f : Nat) (env : Env) (eff : Effects) (code : Int)
    (msg : Option String) (exception : PyObj) (kwargs : List (String × String))
    (t : String) (e : String) (hm : pyFalsyStr msg = true)
    (hfound : errors code = Option.some t)
    (hc : env.collectOutcome eff.collectArgs.length = Option.some e) :
    glazier_init (f + 2) env eff code msg exception true kwargs =
      (GResult.exited 1,
       { eff with
          criticalLogs :=
            eff.criticalLogs ++ [composed env "Failed to collect logs" (PyObj.exc e) 4302],
          collectArgs := eff.collectArgs ++ [zipDest env],
          getMessageCalls := eff.getMessageCalls ++ [code, 4302] }) := by
  have h2 : glazier_init (f + 2) = initBody (glazier_init (f + 1)) := rfl
  rw [h2]
  have hgm := get_messageAux_found (glazier_init (f + 1)) env eff code kwargs t hfound
  have hca := _collectAux_fail (glazier_init (f + 1)) env
    ⟨eff.criticalLogs, eff.collectArgs, eff.getMessageCalls ++ [code]⟩ e (by simpa using hc)
  have hnested := init_lookup_noCollect f env
    ⟨eff.criticalLogs, eff.collectArgs ++ [zipDest env], eff.getMessageCalls ++ [code]⟩
    4302 Option.none (PyObj.exc e) [] "Failed to collect logs" rfl (by decide)
  simp [initBody, hm, hgm, hca, hnested, markLookup]

end Glazier

namespace Glazier

/-- Falsy message, unregistered code: the nested GlazierError(4301) is
constructed with the default collect = True; here its collection succeeds,
so the logged message is the 4301 message, whatever the original collect
flag and exception were. -/
theorem init_missing_collectOk (f : Nat) (env : Env) (eff : Effects) (code : Int)
    (msg : Option String) (exception : PyObj) (collect : Bool)
    (kwargs : List (String × String))
    (hm : pyFalsyStr msg = true) (hmiss : pyFalsyStr (errors code) = true)
    (hc : env.collectOutcome eff.collectArgs.length = Option.none) :
    glazier_init (f + 2) env eff code msg exception collect kwargs =
      (GResult.exited 1,
       { eff with
          criticalLogs := eff.criticalLogs ++
            [composed env "Failed to determine error message from code" PyObj.none 4301],
          collectArgs := eff.collectArgs ++ [zipDest env],
          getMessageCalls := eff.getMessageCalls ++ [code, 4301] }) := by
  have h2 : glazier_init (f + 2) = initBody (glazier_init (f + 1)) := rfl
  rw [h2]
  have hgm := get_messageAux_missing (glazier_init (f + 1)) env eff code kwargs hmiss
  have hnested := init_lookup_collectOk f env
    ⟨eff.criticalLogs, eff.collectArgs, eff.getMessageCalls ++ [code]⟩
    4301 Option.none PyObj.none [] "Failed to determine error message from code"
    rfl (by decide) (by simpa using hc)
  simp [initBody, hm, hgm, hnested, markLookup]

/-- Falsy message, unregistered code, and the collection attempted by the
nested GlazierError(4301) fails: a second nested GlazierError(4302) logs
and exits. -/
theorem init_missing_collectFail (f : Nat) (env : Env) (eff : Effects) (code : Int)
    (msg : Option String) (exception : PyObj) (collect : Bool)
    (kwargs : List (String × String)) (e : String)
    (hm : pyFalsyStr msg = true) (hmiss : pyFalsyStr (errors code) = true)
    (hc : env.collectOutcome eff.collectArgs.length = Option.some e) :
    glazier_init (f + 3) env eff code msg exception collect kwargs =
      (GResult.exited 1,
       { eff with
          criticalLogs :=
            eff.criticalLogs ++ [composed env "Failed to collect logs" (PyObj.exc e) 4302],
          collectArgs := eff.collectArgs ++ [zipDest env],
          getMessageCalls := eff.getMessageCalls ++ [code, 4301, 4302] }) := by
  have h2 : glazier_init (f + 3) = initBody (glazier_init (f + 2)) := rfl
  rw [h2]
  have hgm := get_messageAux_missing (glazier_init (f + 2)) env eff code kwargs hmiss
  have hnested := init_lookup_collectFail f env
    ⟨eff.criticalLogs, eff.collectArgs, eff.getMessageCalls ++ [code]⟩
    4301 Option.none PyObj.none [] "Failed to determine error message from code" e
    rfl (by decide) (by simpa using hc)
  simp [initBody, hm, hgm, hnested, markLookup]

end Glazier

namespace Glazier

/-! ### Shape of every logged message, and the master run lemma -/

/-- Every composed message ends with the help footer for its code. -/
theorem composed_footer (env : Env) (m0 : String) (exception : PyObj) (code : Int) :
    ∃ p, composed env m0 exception code = p ++ _SUFFIX env ++ "#" ++ toString code :=
  ⟨if exception.truthy then m0 ++ "\n\n" ++ "Exception: " ++ exception.render ++ "\n\n"
    else m0 ++ "\n\n", by simp only [composed]⟩

/-- No composed message is empty. -/
theorem composed_ne_empty (env : Env) (m0 : String) (exception : PyObj) (code : Int) :
    composed env m0 exception code ≠ "" := by
  obtain ⟨p, hp⟩ := composed_footer env m0 exception code
  intro h
  rw [hp] at h
  have h2 := congrArg String.length h
  simp only [String.length_append] at h2
  rw [_SUFFIX, String.length_append] at h2
  rw [show ("Need help? Visit " : String).length = 17 from rfl] at h2
  rw [show ("#" : String).length = 1 from rfl] at h2
  rw [show ("" : String).length = 0 from rfl] at h2
  omega

/-- Master lemma: with enough fuel, every run of the GlazierError
constructor, whatever the environment, incoming effects and arguments,
terminates the process with exit status 1 having appended exactly one
critical log record, and that record is a composed message. -/
theorem glazier_init_master (fuel : Nat) (env : Env) (eff : Effects) (code : Int)
    (msg : Option String) (exception : PyObj) (collect : Bool)
    (kwargs : List (String × String)) :
    ∃ (m0 : String) (exc2 : PyObj) (c : Int) (ca : List String) (gm : List Int),
      glazier_init (fuel + 3) env eff code msg exception collect kwargs =
        (GResult.exited 1,
         ⟨eff.criticalLogs ++ [composed env m0 exc2 c],
          eff.collectArgs ++ ca,
          eff.getMessageCalls ++ gm⟩) := by
  cases hm : pyFalsyStr msg with
  | false =>
    cases collect with
    | false =>
      refine ⟨msg.getD "", exception, code, [], [], ?_⟩
      simp only [List.append_nil]
      exact init_msg_noCollect (fuel + 2) env eff code msg exception kwargs hm
    | true =>
      cases hc : env.collectOutcome eff.collectArgs.length with
      | none =>
        refine ⟨msg.getD "", exception, code, [zipDest env], [], ?_⟩
        simp only [List.append_nil]
        exact init_msg_collectOk (fuel + 2) env eff code msg exception kwargs hm hc
      | some e =>
        exact ⟨"Failed to collect logs", PyObj.exc e, 4302, [zipDest env], [4302],
          init_msg_collectFail (fuel + 1) env eff code msg exception kwargs e hm hc⟩
  | true =>
    cases hfound : errors code with
    | none =>
      have hmiss : pyFalsyStr (errors code) = true := by rw [hfound]; rfl
      cases hc : env.collectOutcome eff.collectArgs.length with
      | none =>
        exact ⟨"Failed to determine error message from code", PyObj.none, 4301,
          [zipDest env], [code, 4301],
          init_missing_collectOk (fuel + 1) env eff code msg exception collect kwargs
            hm hmiss hc⟩
      | some e =>
        exact ⟨"Failed to collect logs", PyObj.exc e, 4302, [zipDest env],
          [code, 4301, 4302],
          init_missing_collectFail fuel env eff code msg exception collect kwargs e
            hm hmiss hc⟩
    | some t =>
      cases collect with
      | false =>
        refine ⟨t, exception, code, [], [code], ?_⟩
        simp only [List.append_nil]
        exact init_lookup_noCollect (fuel + 2) env eff code msg exception kwargs t hm hfound
      | true =>
        cases hc : env.collectOutcome eff.collectArgs.length with
        | none =>
          exact ⟨t, exception, code, [zipDest env], [code],
            init_lookup_collectOk (fuel + 2) env eff code msg exception kwargs t
              hm hfound hc⟩
        | some e =>
          exact ⟨"Failed to collect logs", PyObj.exc e, 4302, [zipDest env], [code, 4302],
            init_lookup_collectFail (fuel + 1) env eff code msg exception kwargs t e
              hm hfound hc⟩

end Glazier

namespace Glazier

/-! ### Claim theorems -/

/-- Claim C1: for every construction of a FatalError (GlazierError), on
every fatal path and regardless of the code, message, exception, collect
flag, or failure kind involved (here: any environment, so any behaviour of
the collection collaborator), the process terminates with exit status
exactly 1, and the constructor never returns control to its caller (the
outcome is always the terminal exited state, never a normal return, an
escaping exception, or fuel exhaustion). -/
theorem claim_C1_always_exit_one (fuel : Nat) (env : Env) (eff : Effects) (code : Int)
    (msg : Option String) (exception : PyObj) (collect : Bool)
    (kwargs : List (String × String)) :
    (glazier_init (fuel + 3) env eff code msg exception collect kwargs).1 =
      GResult.exited 1 := by
  obtain ⟨m0, e2, c, ca, gm, h⟩ :=
    glazier_init_master fuel env eff code msg exception collect kwargs
  rw [h]

/-- Claim C9: every construction that reaches the logging step logs a
non-empty string; indeed every critical log record produced by a run from
a fresh process ends with the help footer for some code, so it is never
empty. -/
theorem claim_C9_nonempty_logs (fuel : Nat) (env : Env) (code : Int)
    (msg : Option String) (exception : PyObj) (collect : Bool)
    (kwargs : List (String × String)) (s : String)
    (hs : s ∈ (glazier_init (fuel + 3) env effEmpty code msg exception collect
      kwargs).2.criticalLogs) :
    s ≠ "" ∧ ∃ (p : String) (c : Int), s = p ++ _SUFFIX env ++ "#" ++ toString c := by
  obtain ⟨m0, e2, c, ca, gm, h⟩ :=
    glazier_init_master fuel env effEmpty code msg exception collect kwargs
  rw [h] at hs
  simp only [effEmpty, List.nil_append, List.mem_singleton] at hs
  subst hs
  refine ⟨composed_ne_empty env m0 e2 c, ?_⟩
  obtain ⟨p, hp⟩ := composed_footer env m0 e2 c
  exact ⟨p, c, hp⟩

/-- Claim C10: no template in the registry contains any format
placeholder (no brace character occurs in any registry value), so for
every registered code and any keyword arguments supplied, get_message
returns the registry template exactly and never fails; in particular
code 5000 yields the verbatim string. -/
theorem claim_C10_templates_literal (fuel : Nat) (env : Env) (eff : Effects)
    (kwargs : List (String × String)) :
    get_message fuel env eff 4000 kwargs =
      (Sum.inl "Uncaught exception", markLookup eff 4000)
  ∧ get_message fuel env eff 4301 kwargs =
      (Sum.inl "Failed to determine error message from code", markLookup eff 4301)
  ∧ get_message fuel env eff 4302 kwargs =
      (Sum.inl "Failed to collect logs", markLookup eff 4302)
  ∧ get_message fuel env eff 5000 kwargs =
      (Sum.inl "Failed to reach web server", markLookup eff 5000)
  ∧ get_message fuel env eff 5300 kwargs =
      (Sum.inl "Service unavailable", markLookup eff 5300)
  ∧ ∀ code : Int, (((errors code).getD "").data.all
      (fun ch => !(ch == lbrace) && !(ch == rbrace))) = true := by
  refine ⟨?_, ?_, ?_, ?_, ?_, ?_⟩
  · exact get_messageAux_found (glazier_init fuel) env eff 4000 kwargs _ (by decide)
  · exact get_messageAux_found (glazier_init fuel) env eff 4301 kwargs _ (by decide)
  · exact get_messageAux_found (glazier_init fuel) env eff 4302 kwargs _ (by decide)
  · exact get_messageAux_found (glazier_init fuel) env eff 5000 kwargs _ (by decide)
  · exact get_messageAux_found (glazier_init fuel) env eff 5300 kwargs _ (by decide)
  · intro code
    unfold errors
    split_ifs <;> decide

/-- Claim C8: message resolution uses only the values of the supplied
keyword arguments, positionally in insertion order, discarding the
argument names entirely: two keyword argument lists with the same value
sequence give identical get_message results, whatever the names. -/
theorem claim_C8_names_discarded (fuel : Nat) (env : Env) (eff : Effects) (code : Int)
    (kw1 kw2 : List (String × String)) (h : kw1.map Prod.snd = kw2.map Prod.snd) :
    get_message fuel env eff code kw1 = get_message fuel env eff code kw2 := by
  show get_messageAux (glazier_init fuel) env eff code kw1 =
    get_messageAux (glazier_init fuel) env eff code kw2
  unfold get_messageAux
  rw [h]

/-- Witness for claim C9 at a concrete run: the single record logged for
code 5000 under a succeeding collector environment. -/
theorem claim_C9_witness :
    ("Failed to reach web server\n\nNeed help? Visit H#5000" ≠ "" ∧
     ∃ (p : String) (c : Int), "Failed to reach web server\n\nNeed help? Visit H#5000" =
       p ++ _SUFFIX envOk ++ "#" ++ toString c) :=
  claim_C9_nonempty_logs 0 envOk 5000 Option.none PyObj.none false []
    "Failed to reach web server\n\nNeed help? Visit H#5000" (by decide)

/-- Witness for claim C8: two keyword argument lists differing only in
their names resolve identically. -/
theorem claim_C8_witness :
    get_message 1 envOk effEmpty 5000 [("a", "x")] =
      get_message 1 envOk effEmpty 5000 [("b", "x")] :=
  claim_C8_names_discarded 1 envOk effEmpty 5000 [("a", "x")] [("b", "x")] rfl

end Glazier

namespace Glazier

/-- Claim C6: whenever message resolution succeeds directly (an explicit
truthy message, or a falsy message with a registered code) and collection
does not fail (disabled or succeeding), the construction logs exactly one
string, composed in the exact source order: resolved message, two
newlines, the exception line followed by two newlines only when the
exception argument is truthy, then the footer with the supplied code. -/
theorem claim_C6_composition (f : Nat) (env : Env) (eff : Effects) (code : Int)
    (msg : Option String) (exception : PyObj) (collect : Bool)
    (kwargs : List (String × String)) (m0 : String)
    (hres : (pyFalsyStr msg = false ∧ msg = Option.some m0) ∨
            (pyFalsyStr msg = true ∧ errors code = Option.some m0))
    (hcol : collect = false ∨ env.collectOutcome eff.collectArgs.length = Option.none) :
    glazier_init (f + 1) env eff code msg exception collect kwargs =
      (GResult.exited 1,
       ⟨eff.criticalLogs ++ [composed env m0 exception code],
        eff.collectArgs ++ (if collect then [zipDest env] else []),
        eff.getMessageCalls ++ (if pyFalsyStr msg then [code] else [])⟩) := by
  rcases hres with ⟨hm, hmsg⟩ | ⟨hm, hfound⟩
  · subst hmsg
    cases collect with
    | false =>
      have h := init_msg_noCollect f env eff code (Option.some m0) exception kwargs hm
      simpa [hm] using h
    | true =>
      rcases hcol with hcol | hc
      · exact absurd hcol (by simp)
      · have h := init_msg_collectOk f env eff code (Option.some m0) exception kwargs hm hc
        simpa [hm] using h
  · cases collect with
    | false =>
      have h := init_lookup_noCollect f env eff code msg exception kwargs m0 hm hfound
      simpa [hm] using h
    | true =>
      rcases hcol with hcol | hc
      · exact absurd hcol (by simp)
      · have h := init_lookup_collectOk f env eff code msg exception kwargs m0 hm hfound hc
        simpa [hm] using h

/-- Witness for claim C6 at concrete inputs, collection enabled and
succeeding, with a truthy string exception. -/
theorem claim_C6_witness :
    glazier_init 1 envOk effEmpty 5 (Option.some "hello") (PyObj.str "warn") true
      [("k", "v")] =
      (GResult.exited 1,
       ⟨effEmpty.criticalLogs ++ [composed envOk "hello" (PyObj.str "warn") 5],
        effEmpty.collectArgs ++ (if true then [zipDest envOk] else []),
        effEmpty.getMessageCalls ++
          (if pyFalsyStr (Option.some "hello") then [5] else [])⟩) :=
  claim_C6_composition 0 envOk effEmpty 5 (Option.some "hello") (PyObj.str "warn") true
    [("k", "v")] "hello" (Or.inl ⟨rfl, rfl⟩) (Or.inr rfl)

/-- Counterexample to claim C7 as stated: with an explicit non-empty
message, collection enabled and the collection collaborator failing, the
construction logs only the collection-failure message for code 4302: the
supplied message appears in no logged output, and a registry lookup (of
code 4302, by the nested construction) does occur. -/
theorem claim_C7_counterexample :
    (glazier_init 3 envFail effEmpty 7 (Option.some "custom text") PyObj.none true []).2 =
      ⟨["Failed to collect logs\n\nException: boom\n\nNeed help? Visit H#4302"],
       ["C/glazier_logs.zip"], [4302]⟩
    ∧ ¬ ("custom text".data <:+:
        "Failed to collect logs\n\nException: boom\n\nNeed help? Visit H#4302".data) :=
  ⟨by decide, by decide⟩

/-- Claim C7 amended: for every code, constructing with an explicit
non-empty message uses it verbatim and performs no registry lookup, and,
provided collection is disabled or succeeds, the logged output is that
message plus the footer embedding the same code.  (If collection fails,
the nested code-4302 error is logged instead.) -/
theorem claim_C7_amended (f : Nat) (env : Env) (eff : Effects) (code : Int)
    (m : String) (exception : PyObj) (collect : Bool)
    (kwargs : List (String × String)) (hm : (m == "") = false)
    (hcol : collect = false ∨ env.collectOutcome eff.collectArgs.length = Option.none) :
    glazier_init (f + 1) env eff code (Option.some m) exception collect kwargs =
      (GResult.exited 1,
       ⟨eff.criticalLogs ++ [composed env m exception code],
        eff.collectArgs ++ (if collect then [zipDest env] else []),
        eff.getMessageCalls⟩) := by
  have hm2 : pyFalsyStr (Option.some m) = false := hm
  cases collect with
  | false =>
    have h := init_msg_noCollect f env eff code (Option.some m) exception kwargs hm2
    simpa using h
  | true =>
    rcases hcol with hcol | hc
    · exact absurd hcol (by simp)
    · have h := init_msg_collectOk f env eff code (Option.some m) exception kwargs hm2 hc
      simpa using h

/-- Witness for the amended claim C7 at concrete inputs. -/
theorem claim_C7_amended_witness :
    glazier_init 1 envOk effEmpty 9 (Option.some "custom text") (PyObj.str "oops")
      false [] =
      (GResult.exited 1,
       ⟨effEmpty.criticalLogs ++ [composed envOk "custom text" (PyObj.str "oops") 9],
        effEmpty.collectArgs ++ (if false then [zipDest envOk] else []),
        effEmpty.getMessageCalls⟩) :=
  claim_C7_amended 0 envOk effEmpty 9 "custom text" (PyObj.str "oops") false []
    (by decide) (Or.inl rfl)

end Glazier

namespace Glazier

/-- Counterexample to claim C2 as stated: for the unregistered code 9999
with no explicit message, under an environment whose collection
collaborator fails, the process still exits but the single logged critical
message embeds the collection-failure code 4302, not the unknown-code
code 4301 (the nested GlazierError(4301) is constructed with collect
defaulting to True, and that collection fails). -/
theorem claim_C2_counterexample :
    (glazier_init 3 envFail effEmpty 9999 Option.none PyObj.none true []).2.criticalLogs =
      ["Failed to collect logs\n\nException: boom\n\nNeed help? Visit H#4302"]
    ∧ ¬ ("#4301".data <:+:
        "Failed to collect logs\n\nException: boom\n\nNeed help? Visit H#4302".data) :=
  ⟨by decide, by decide⟩

/-- Claim C2 amended: for every code absent from the registry, with no
explicit message, and provided log collection succeeds (the nested
unknown-code GlazierError is constructed with collect defaulting to True,
so collection is attempted regardless of the original collect flag), the
process exits with status 1 and logs exactly one critical message, the
unknown-code message whose footer embeds 4301, not the requested code. -/
theorem claim_C2_amended (f : Nat) (env : Env) (code : Int) (exception : PyObj)
    (collect : Bool) (kwargs : List (String × String))
    (hmiss : errors code = Option.none)
    (hcol : env.collectOutcome 0 = Option.none) :
    glazier_init (f + 2) env effEmpty code Option.none exception collect kwargs =
      (GResult.exited 1,
       ⟨[composed env "Failed to determine error message from code" PyObj.none 4301],
        [zipDest env], [code, 4301]⟩) := by
  have hm : pyFalsyStr (Option.none : Option String) = true := rfl
  have hmiss2 : pyFalsyStr (errors code) = true := by rw [hmiss]; rfl
  have h := init_missing_collectOk f env effEmpty code Option.none exception collect
    kwargs hm hmiss2 hcol
  simpa [effEmpty] using h

/-- Witness for the amended claim C2 at the concrete unregistered
code 9999 under a succeeding collector. -/
theorem claim_C2_amended_witness :
    glazier_init 2 envOk effEmpty 9999 Option.none PyObj.none true [] =
      (GResult.exited 1,
       ⟨[composed envOk "Failed to determine error message from code" PyObj.none 4301],
        [zipDest envOk], [9999, 4301]⟩) :=
  claim_C2_amended 0 envOk 9999 PyObj.none true [] (by decide) rfl

/-- Counterexample to claim C3 as stated: constructing with collect =
False, an unregistered code and no message does invoke the collection
collaborator once, because the nested GlazierError(4301) raised by
get_message is constructed with collect defaulting to True. -/
theorem claim_C3_counterexample :
    (glazier_init 3 envOk effEmpty 9999 Option.none PyObj.none false []).2.collectArgs =
      ["C/glazier_logs.zip"] := by decide

/-- Claim C3 amended: constructing with collect = False never invokes the
collection collaborator provided message resolution succeeds directly (an
explicit truthy message, or a registered code); for an unregistered code
with no message, the nested unknown-code error collects anyway. -/
theorem claim_C3_amended (f : Nat) (env : Env) (eff : Effects) (code : Int)
    (msg : Option String) (exception : PyObj) (kwargs : List (String × String))
    (m0 : String)
    (hres : (pyFalsyStr msg = false ∧ msg = Option.some m0) ∨
            (pyFalsyStr msg = true ∧ errors code = Option.some m0)) :
    glazier_init (f + 1) env eff code msg exception false kwargs =
      (GResult.exited 1,
       ⟨eff.criticalLogs ++ [composed env m0 exception code],
        eff.collectArgs,
        eff.getMessageCalls ++ (if pyFalsyStr msg then [code] else [])⟩) := by
  rcases hres with ⟨hm, hmsg⟩ | ⟨hm, hfound⟩
  · subst hmsg
    have h := init_msg_noCollect f env eff code (Option.some m0) exception kwargs hm
    simpa [hm] using h
  · have h := init_lookup_noCollect f env eff code msg exception kwargs m0 hm hfound
    simpa [hm] using h

/-- Witness for the amended claim C3: a registered code with no message
and collect = False leaves the collection argument list unchanged. -/
theorem claim_C3_amended_witness :
    glazier_init 1 envOk effEmpty 5000 Option.none PyObj.none false [] =
      (GResult.exited 1,
       ⟨effEmpty.criticalLogs ++ [composed envOk "Failed to reach web server" PyObj.none 5000],
        effEmpty.collectArgs,
        effEmpty.getMessageCalls ++
          (if pyFalsyStr (Option.none : Option String) then [5000] else [])⟩) :=
  claim_C3_amended 0 envOk effEmpty 5000 Option.none PyObj.none []
    "Failed to reach web server" (Or.inr ⟨rfl, by decide⟩)

/-- Claim C5: for every construction with collect = True whose (first and
only) collection attempt fails, a new GlazierError is constructed with the
dedicated code 4302, the caught failure as its exception and collect =
False: exactly one critical message is logged (the composed 4302 message
carrying the caught failure), collection is attempted exactly once, and
the original construction never proceeds past the collection step (no
other message is logged). -/
theorem claim_C5_collect_failure (fuel : Nat) (env : Env) (code : Int)
    (msg : Option String) (exception : PyObj) (kwargs : List (String × String))
    (e : String) (hc : env.collectOutcome 0 = Option.some e) :
    ∃ gm : List Int,
      glazier_init (fuel + 3) env effEmpty code msg exception true kwargs =
        (GResult.exited 1,
         ⟨[composed env "Failed to collect logs" (PyObj.exc e) 4302],
          [zipDest env], gm⟩) := by
  have hc2 : env.collectOutcome effEmpty.collectArgs.length = Option.some e := hc
  cases hm : pyFalsyStr msg with
  | false =>
    refine ⟨[4302], ?_⟩
    have h := init_msg_collectFail (fuel + 1) env effEmpty code msg exception kwargs e
      hm hc2
    simpa [effEmpty] using h
  | true =>
    cases hfound : errors code with
    | none =>
      have hmiss : pyFalsyStr (errors code) = true := by rw [hfound]; rfl
      refine ⟨[code, 4301, 4302], ?_⟩
      have h := init_missing_collectFail fuel env effEmpty code msg exception true
        kwargs e hm hmiss hc2
      simpa [effEmpty] using h
    | some t =>
      refine ⟨[code, 4302], ?_⟩
      have h := init_lookup_collectFail (fuel + 1) env effEmpty code msg exception
        kwargs t e hm hfound hc2
      simpa [effEmpty] using h

/-- Witness for claim C5 at a concrete failing-collector run. -/
theorem claim_C5_witness :
    ∃ gm : List Int,
      glazier_init 3 envFail effEmpty 5000 Option.none PyObj.none true [] =
        (GResult.exited 1,
         ⟨[composed envFail "Failed to collect logs" (PyObj.exc "boom") 4302],
          [zipDest envFail], gm⟩) :=
  claim_C5_collect_failure 0 envFail 5000 Option.none PyObj.none [] "boom" rfl

end Glazier
